import Mathlib

/-!
Verification development for the transcript-analysis application in
`src/app.py`.  The data-transformation core (record normalization,
subject-area classification, credit/GPA aggregation, benchmark
comparison) is shallowly embedded: pandas numeric cells become
`Option Rat` (NaN-or-value) before `fillna`, float arithmetic becomes
exact `Rat` arithmetic extended with IEEE special values where division
by zero matters, and each Python function becomes a total Lean function
over explicit lists of records.
-/

namespace App

/-- Uppercase of a single character, modelling Python `str.upper` on the
alphabet this application uses: ASCII letters plus the accented Portuguese
letters occurring in the classification keywords. -/
def pyUpperChar (c : Char) : Char :=
  if c = 'á' then 'Á' else if c = 'à' then 'À' else if c = 'â' then 'Â'
  else if c = 'ã' then 'Ã' else if c = 'é' then 'É' else if c = 'ê' then 'Ê'
  else if c = 'í' then 'Í' else if c = 'ó' then 'Ó' else if c = 'ô' then 'Ô'
  else if c = 'õ' then 'Õ' else if c = 'ú' then 'Ú' else if c = 'ç' then 'Ç'
  else c.toUpper

/-- Uppercase of a string, modelling Python `str.upper` (same alphabet). -/
def pyUpper (s : String) : String := String.mk (s.data.map pyUpperChar)

/-- Decides whether `pat` is an initial segment of `s`, modelling Python
`str.startswith`. -/
def hasPref : List Char → List Char → Bool
  | [], _ => true
  | _ :: _, [] => false
  | p :: ps, c :: s => p == c && hasPref ps s

/-- Decides whether `pat` occurs as a contiguous substring, modelling the
Python `in` operator on strings (`key in disciplina`). -/
def containsSub (pat : List Char) : List Char → Bool
  | [] => hasPref pat []
  | c :: rest => hasPref pat (c :: rest) || containsSub pat rest

/-- Ordered keyword table of `categorizar_area` (a Python dict literal,
iterated in insertion order). -/
def mapeamento : List (String × String) :=
  [("MAT", "Matemática"), ("FIS", "Física"), ("CEL", "Eletrônica"),
   ("ENE", "Sistemas de Potência"), ("CÁLCULO", "Matemática"),
   ("FÍSICA", "Física"), ("LABORATÓRIO", "Práticas")]

/-- The `for key, value in mapeamento.items()` loop of `categorizar_area`
(src/app.py:23-26): return the value of the first key such that the code
starts with the key OR the discipline name contains the key; when the loop
falls through, return `Outras`. -/
def firstMatch (c d : List Char) : List (String × String) → String
  | [] => "Outras"
  | kv :: rest =>
    if hasPref kv.1.data c || containsSub kv.1.data d then kv.2
    else firstMatch c d rest

/-- Embedding of `categorizar_area` (src/app.py:15-26): uppercase both
fields, then scan the keyword table in insertion order with the combined
prefix-or-substring test. -/
def categorizar_area (codigo disciplina : String) : String :=
  firstMatch (pyUpper codigo).data (pyUpper disciplina).data mapeamento

example : categorizar_area "FIS101" "Materiais" = "Matemática" := by decide

example : categorizar_area "XYZ" "Cálculo I" = "Matemática" := by decide

example : categorizar_area "MAT101" "Qualquer" = "Matemática" := by decide

/-- Reformulation of the classifier, following the spec's design as an
explicit ordered list of rules (section 4.1 / 9) with the per-rule test the
code actually performs: rule `k -> area` fires when the uppercased code
starts with `k` or the uppercased discipline name contains `k`; evaluated
in declared order, first match wins, default `Outras`. -/
def classify_rules (codigo disciplina : String) : String :=
  let c := (pyUpper codigo).data
  let d := (pyUpper disciplina).data
  let hit := fun (k : String) => hasPref k.data c || containsSub k.data d
  if hit "MAT" then "Matemática"
  else if hit "FIS" then "Física"
  else if hit "CEL" then "Eletrônica"
  else if hit "ENE" then "Sistemas de Potência"
  else if hit "CÁLCULO" then "Matemática"
  else if hit "FÍSICA" then "Física"
  else if hit "LABORATÓRIO" then "Práticas"
  else "Outras"

/-- Raw transcript record, as it reaches `load_data` after CSV parsing and
column renaming (src/app.py:32-35).  A numeric cell is `some q` when
`pd.to_numeric(..., errors="coerce")` parses it and `none` when the cell is
missing or unparsable (pandas NaN). -/
structure RawRec where
  codigo : String
  disciplina : String
  nota? : Option Rat
  horas? : Option Rat
  ano : Int
deriving DecidableEq, Repr

/-- Normalized record produced by `load_data` (src/app.py:36-41). -/
structure NRec where
  codigo : String
  disciplina : String
  nota : Rat
  horas : Rat
  ano : Int
  area : String
  creditos : Int
deriving DecidableEq, Repr

/-- Credit computation `df["Horas"] // 15` (src/app.py:40): Python floor
division on floats, floor toward negative infinity, then an exact cast to
int (`astype(int)` on an integral float). -/
def creditosOf (horas : Rat) : Int := Rat.floor (horas / 15)

/-- Identification of the executable `Rat.floor` with the mathematical
floor. -/
theorem creditosOf_eq_floor (horas : Rat) : creditosOf horas = Int.floor (horas / 15) := by
  rw [creditosOf, Rat.floor_def', Rat.floor_def]

/-- Evaluation rule for the credit computation. -/
theorem creditosOf_eq_of (horas : Rat) (n : Int) (h1 : (n : Rat) ≤ horas / 15)
    (h2 : horas / 15 < n + 1) : creditosOf horas = n := by
  rw [creditosOf_eq_floor]
  exact Int.floor_eq_iff.2 ⟨h1, h2⟩

/-- Normalization of one record (src/app.py:36-40): `fillna(0)` replaces an
unparsed numeric cell by 0, then the area and the credits are derived. -/
def normalizeOne (r : RawRec) : NRec :=
  { codigo := r.codigo
    disciplina := r.disciplina
    nota := r.nota?.getD 0
    horas := r.horas?.getD 0
    ano := r.ano
    area := categorizar_area r.codigo r.disciplina
    creditos := creditosOf (r.horas?.getD 0) }

/-- Embedding of `load_data` (src/app.py:30-41) after the CSV has been read
into raw records: numeric coercion with default 0, area classification and
credit computation for every row; no row is dropped and no error is raised
(the function is total). -/
def load_data (rs : List RawRec) : List NRec := rs.map normalizeOne

/-- Pandas float scalar: an exact rational or one of the IEEE special
values that float division can produce. -/
inductive PFloat where
  | nan : PFloat
  | inf : PFloat
  | ninf : PFloat
  | val : Rat → PFloat
deriving DecidableEq, Repr

/-- Float division as pandas/numpy performs it: division by zero raises no
error but yields infinity (nonzero numerator) or NaN (0/0). -/
def pdiv (a b : Rat) : PFloat :=
  if b ≠ 0 then PFloat.val (a / b)
  else if 0 < a then PFloat.inf
  else if a < 0 then PFloat.ninf
  else PFloat.nan

/-- Multiplication of a pandas float by a positive rational constant. -/
def pscale (c : Rat) : PFloat → PFloat
  | PFloat.nan => PFloat.nan
  | PFloat.inf => PFloat.inf
  | PFloat.ninf => PFloat.ninf
  | PFloat.val q => PFloat.val (c * q)

/-- Rounding to the nearest integer, ties to even, as numpy `round` does. -/
def roundHalfEven (q : Rat) : Int :=
  let f := Int.floor q
  let frac := q - (f : Rat)
  if frac < 1 / 2 then f
  else if (1 : Rat) / 2 < frac then f + 1
  else if f % 2 = 0 then f else f + 1

/-- Rounding a rational to 2 decimal places (numpy `.round(2)`). -/
def round2Q (q : Rat) : Rat := (roundHalfEven (q * 100) : Rat) / 100

/-- Rounding a pandas float to 2 decimal places; special values unchanged. -/
def round2P : PFloat → PFloat
  | PFloat.val q => PFloat.val (round2Q q)
  | x => x

/-- Ascending list of the distinct years of a record set, the group keys
produced by `groupby("Ano")` (sorted ascending, src/app.py:125). -/
def sortedYears (l : List NRec) : List Int :=
  List.insertionSort (· ≤ ·) (l.map (fun r => r.ano)).dedup

/-- Sum of the credits of the records of one year (the `agg` sum of one
group, src/app.py:125). -/
def creditSum (l : List NRec) (y : Int) : Int :=
  ((l.filter (fun r => r.ano = y)).map (fun r => r.creditos)).sum

/-- Per-year credit totals in ascending year order, the `Creditos` column
of `df_acumulado` (src/app.py:125). -/
def creditosPorAno (l : List NRec) : List Int :=
  (sortedYears l).map (creditSum l)

/-- Running sums, modelling the pandas `cumsum` column (src/app.py:126). -/
def cumsumFrom (acc : Int) : List Int → List Int
  | [] => []
  | x :: xs => (acc + x) :: cumsumFrom (acc + x) xs

/-- `Acumulado` column of `df_acumulado` (src/app.py:126). -/
def acumulado (l : List NRec) : List Int := cumsumFrom 0 (creditosPorAno l)

/-- `total_creditos = df_acumulado["Creditos"].sum()` (src/app.py:127). -/
def totalCreditos (l : List NRec) : Int := (creditosPorAno l).sum

/-- The `% Acumulado` column (src/app.py:128): each cumulative value is
divided by the total, scaled by 100 and rounded to 2 decimals, in float
arithmetic (division by a zero total yields NaN or infinity, not an
error). -/
def pctAcumulado (l : List NRec) : List PFloat :=
  (acumulado l).map
    (fun a : Int => round2P (pscale 100 (pdiv (a : Rat) (totalCreditos l : Rat))))

/-- Numerator of the weighted GPA, `(Nota * Creditos).sum()`
(src/app.py:134). -/
def wsum (l : List NRec) : Rat :=
  (l.map (fun r => r.nota * (r.creditos : Rat))).sum

/-- The IRA (weighted GPA) of a filtered record set (src/app.py:134):
`wsum / total_creditos` when the total is positive, 0 otherwise. -/
def ira (l : List NRec) : Rat :=
  if 0 < totalCreditos l then wsum l / (totalCreditos l : Rat) else 0

/-- Descending-grade comparison used to embed `nlargest(10, "Nota")`:
record `a` goes before record `b` when `a`'s grade is at least `b`'s. -/
def gradeGe (a b : NRec) : Prop := b.nota ≤ a.nota

instance : DecidableRel gradeGe := fun a b => inferInstanceAs (Decidable (b.nota ≤ a.nota))

/-- Embedding of `filtered_df.nlargest(n, "Nota")` (src/app.py:167): the
first `n` rows of a stable sort by grade descending (pandas `nlargest`
with the default `keep="first"`: ties are resolved toward the earlier
row, and the result is ordered by descending grade). -/
def topByGrade (l : List NRec) (n : Nat) : List NRec :=
  (List.insertionSort gradeGe l).take n

/-- Fixed competency names of the benchmark table (src/app.py:49-52). -/
def benchmarkCompetencias : List String :=
  ["Engenharia Elétrica", "Power Line Communication", "Gestão de Projetos",
   "Atendimento ao Cliente", "Análise de Dados", "Vendas Técnicas",
   "Automação Industrial", "Liderança de Equipes", "Sustentabilidade Energética",
   "Transformação Digital"]

/-- Fixed market-average values of the benchmark table (src/app.py:53). -/
def benchmarkValores : List Rat :=
  [19/5, 16/5, 41/10, 7/2, 39/10, 17/5, 4, 37/10, 21/5, 18/5]

/-- Row of the comparison table built by `create_career_assessment`. -/
structure CompRow where
  competencia : String
  suaAvaliacao : Rat
  mediaMercado : Rat
deriving DecidableEq, Repr

/-- Embedding of the table construction of `create_career_assessment`
(src/app.py:47-60): `pd.DataFrame` pairs `ratings.keys()`,
`ratings.values()` and the fixed benchmark list column by column, purely by
position; the keys themselves are never compared against the benchmark
names.  When the number of ratings differs from the benchmark length the
DataFrame constructor raises a length-mismatch `ValueError`, embedded as
the `Except.error` case. -/
def create_career_assessment (ratings : List (String × Rat)) : Except String (List CompRow) :=
  if ratings.length = benchmarkValores.length then
    Except.ok (List.zipWith (fun p b => CompRow.mk p.1 p.2 b) ratings benchmarkValores)
  else
    Except.error "All arrays must be of the same length"

/-- Comparison row extended with the `Diferencial` column
(src/app.py:219). -/
structure CompRowD where
  competencia : String
  suaAvaliacao : Rat
  mediaMercado : Rat
  diferencial : Rat
deriving DecidableEq, Repr

/-- Column assignment `df_comparison["Diferencial"] = df_comparison["Sua
Avaliação"] - df_comparison["Média de Mercado"]` (src/app.py:219):
row-wise exact subtraction, no rounding. -/
def addDiferencial (rows : List CompRow) : List CompRowD :=
  rows.map (fun r => CompRowD.mk r.competencia r.suaAvaliacao r.mediaMercado
    (r.suaAvaliacao - r.mediaMercado))

/-- Strengths selection `df_comparison[df_comparison["Diferencial"] > 0.5]`
(src/app.py:220): a boolean-mask filter, which keeps exactly the rows with
differential strictly above 0.5 in their original order. -/
def strengthsOf (rows : List CompRowD) : List CompRowD :=
  rows.filter (fun r => 1/2 < r.diferencial)

/-- Default ratings dictionary of the session state (src/app.py:182-193),
in its insertion order. -/
def defaultRatings : List (String × Rat) :=
  benchmarkCompetencias.map (fun c => (c, 3))

/-- C1 (counterexample): a record whose code starts with `FIS` but whose
discipline name contains `MAT` is classified `Matemática`, not `Física`:
every rule of the loop tests both fields, so the earlier `MAT` rule fires
on the discipline name before the `FIS` rule is reached. -/
theorem c1_counterexample :
    categorizar_area "FIS101" "Materiais" = "Matemática" ∧
    ("Matemática" : String) ≠ "Física" := by
  exact ⟨by decide, by decide⟩

/-- C1 (amended): the classifier evaluates the ordered rule list in fixed
priority order, case-insensitively, where each rule fires when the code
starts with the keyword OR the discipline name contains the keyword; the
first matching rule wins and a record matching no rule gets `Outras`.
Consequently a record whose code starts with `FIS` but whose discipline
name contains `MAT` is classified `Matemática`. -/
theorem c1_classifier_ordered_rules :
    (∀ codigo disciplina : String,
      categorizar_area codigo disciplina = classify_rules codigo disciplina)
    ∧ categorizar_area "FIS101" "Materiais" = "Matemática" := by
  constructor
  · intro codigo disciplina
    simp [categorizar_area, firstMatch, mapeamento, classify_rules]
  · decide

/-- C4 (counterexample): a record whose hours field arrives as the numeric
value -7 (e.g. the text "-7", parsed by `pd.to_numeric`) gets Credits =
floor(-7 / 15) = -1, which is negative. -/
theorem c4_counterexample :
    (normalizeOne (RawRec.mk "ELE1" "X" (some 8) (some (-7)) 2020)).creditos = -1 ∧
    ¬ (0 : Int) ≤ (normalizeOne (RawRec.mk "ELE1" "X" (some 8) (some (-7)) 2020)).creditos := by
  have hc : (normalizeOne (RawRec.mk "ELE1" "X" (some 8) (some (-7)) 2020)).creditos = -1 := by
    show creditosOf (-7) = -1
    exact creditosOf_eq_of (-7) (-1) (by norm_num) (by norm_num)
  exact ⟨hc, by rw [hc]; decide⟩

/-- C4 (amended): Credits ≥ 0 holds for every record whose coerced
HoursPerClass is non-negative — in particular for missing or unparsable
hours, which coerce to 0 and yield Credits = 0; a negative numeric
HoursPerClass instead yields negative Credits, since floor division rounds
toward negative infinity. -/
theorem c4_credits_nonneg_of_nonneg_hours :
    (∀ (r : RawRec) (h : Rat), r.horas? = some h → 0 ≤ h →
      0 ≤ (normalizeOne r).creditos)
    ∧ (∀ r : RawRec, r.horas? = none → (normalizeOne r).creditos = 0) := by
  constructor
  · intro r h hr hh
    simp only [normalizeOne, hr, Option.getD_some]
    rw [creditosOf_eq_floor]
    exact Int.floor_nonneg.2 (by positivity)
  · intro r hr
    simp only [normalizeOne, hr, Option.getD_none]
    exact creditosOf_eq_of 0 0 (by norm_num) (by norm_num)

/-- C4 (witness). -/
theorem c4_witness :
    0 ≤ (normalizeOne (RawRec.mk "MAT1" "Cálculo I" (some 9) (some 30) 2019)).creditos :=
  c4_credits_nonneg_of_nonneg_hours.1 (RawRec.mk "MAT1" "Cálculo I" (some 9) (some 30) 2019)
    30 rfl (by norm_num)

/-- C5: for a non-negative hours value the credit computation is
floor(hours / 15), a non-negative integer; hours in [0, 15) give 0 credits,
15 hours give 1 credit, 44 hours give 2 credits; and `normalizeOne` applies
exactly this computation to the coerced hours field. -/
theorem c5_credits_floor_div :
    (∀ h : Rat, 0 ≤ h → creditosOf h = Int.floor (h / 15) ∧ 0 ≤ creditosOf h)
    ∧ (∀ h : Rat, 0 ≤ h → h < 15 → creditosOf h = 0)
    ∧ creditosOf 15 = 1 ∧ creditosOf 44 = 2
    ∧ (∀ r : RawRec, (normalizeOne r).creditos = creditosOf ((r.horas?).getD 0)) := by
  refine ⟨fun h hh => ⟨creditosOf_eq_floor h, ?_⟩, fun h hh hlt => ?_,
    creditosOf_eq_of 15 1 (by norm_num) (by norm_num),
    creditosOf_eq_of 44 2 (by norm_num) (by norm_num), fun r => rfl⟩
  · rw [creditosOf_eq_floor]
    exact Int.floor_nonneg.2 (by positivity)
  · have h1 : h / 15 < 1 := (div_lt_one (by norm_num)).2 hlt
    have h0 : (0 : Rat) ≤ h / 15 := by positivity
    rw [creditosOf_eq_floor]
    exact Int.floor_eq_zero_iff.2 (Set.mem_Ico.2 ⟨h0, h1⟩)

/-- C5 (witness). -/
theorem c5_witness : creditosOf 7 = 0 :=
  c5_credits_floor_div.2.1 7 (by norm_num) (by norm_num)

/-- C7: numeric coercion never drops a record and never fails: the
normalized list has the same length as the raw list, the grade and hours
columns are the raw values with 0 substituted for missing/unparsable
cells, and a record whose grade or hours cell failed to parse gets exactly
0 there. -/
theorem c7_coercion_total :
    (∀ rs : List RawRec, (load_data rs).length = rs.length)
    ∧ (∀ rs : List RawRec,
        (load_data rs).map (fun r => r.nota) = rs.map (fun r => (r.nota?).getD 0))
    ∧ (∀ rs : List RawRec,
        (load_data rs).map (fun r => r.horas) = rs.map (fun r => (r.horas?).getD 0))
    ∧ (∀ r : RawRec, r.nota? = none → (normalizeOne r).nota = 0)
    ∧ (∀ r : RawRec, r.horas? = none → (normalizeOne r).horas = 0) := by
  refine ⟨fun rs => ?_, fun rs => ?_, fun rs => ?_, fun r hr => ?_, fun r hr => ?_⟩
  · simp [load_data]
  · simp [load_data, normalizeOne]
  · simp [load_data, normalizeOne]
  · simp [normalizeOne, hr]
  · simp [normalizeOne, hr]

/-- C7 (witness). -/
theorem c7_witness :
    (normalizeOne (RawRec.mk "Q1" "Química" none none 2018)).nota = 0 :=
  c7_coercion_total.2.2.2.1 (RawRec.mk "Q1" "Química" none none 2018) rfl

/-- Worked GPA example of the spec: grades 8 and 6 with 2 and 4 credits. -/
def gpaExample : List NRec :=
  [NRec.mk "MAT1" "Cálculo I" 8 30 2019 "Matemática" 2,
   NRec.mk "FIS1" "Física I" 6 60 2019 "Física" 4]

/-- Credit total of the worked GPA example. -/
theorem totalCreditos_gpaExample : totalCreditos gpaExample = 6 := by decide

/-- Weighted sum of the worked GPA example. -/
theorem wsum_gpaExample : wsum gpaExample = 40 := by
  simp only [wsum, gpaExample, List.map_cons, List.map_nil, List.sum_cons, List.sum_nil]
  norm_num

/-- IRA value of the worked GPA example. -/
theorem ira_gpaExample : ira gpaExample = 20 / 3 := by
  rw [ira, if_pos (by rw [totalCreditos_gpaExample]; norm_num), totalCreditos_gpaExample,
    wsum_gpaExample]
  norm_num

/-- Two-decimal rounding of 20/3, as the metric display formats it. -/
theorem round2Q_gpaExample : round2Q (ira gpaExample) = 667 / 100 := by
  rw [ira_gpaExample]
  have harg : (20 : Rat) / 3 * 100 = 2000 / 3 := by norm_num
  have hf : Int.floor ((2000 : Rat) / 3) = 666 :=
    Int.floor_eq_iff.2 ⟨by norm_num, by norm_num⟩
  rw [round2Q, harg]
  unfold roundHalfEven
  rw [hf]
  norm_num

/-- C6: the weighted GPA is sum(Grade * Credits) / sum(Credits) whenever
the total credits are positive, and is 0 (not NaN, not an error — the
function is total) when the total credits are 0; on the records
(Grade 8, Credits 2) and (Grade 6, Credits 4) it equals 40/6 = 20/3,
displayed as 6.67 after rounding to two decimals. -/
theorem c6_weighted_gpa :
    (∀ l : List NRec, 0 < totalCreditos l → ira l = wsum l / (totalCreditos l : Rat))
    ∧ (∀ l : List NRec, totalCreditos l = 0 → ira l = 0)
    ∧ ira gpaExample = 20 / 3
    ∧ round2Q (ira gpaExample) = 667 / 100 := by
  refine ⟨fun l hl => ?_, fun l hl => ?_, ira_gpaExample, round2Q_gpaExample⟩
  · rw [ira, if_pos hl]
  · rw [ira, if_neg (by omega)]

/-- C6 (witness). -/
theorem c6_witness : ira gpaExample = wsum gpaExample / (totalCreditos gpaExample : Rat) :=
  c6_weighted_gpa.1 gpaExample (by decide)

/-- One-record set whose total credits are 0, for the cumulative
percentage of a zero total. -/
def zeroCreditExample : List NRec :=
  [NRec.mk "SEM1" "Seminário" 7 10 2020 "Outras" 0]

/-- Auxiliary fact: a running sum over an all-zero list is all-zero. -/
theorem cumsumFrom_zero_of_all_zero :
    ∀ xs : List Int, (∀ x ∈ xs, x = 0) → cumsumFrom 0 xs = List.replicate xs.length 0
  | [], _ => rfl
  | x :: xs, h => by
    have hx : x = 0 := h x (List.mem_cons_self x xs)
    have ih := cumsumFrom_zero_of_all_zero xs (fun y hy => h y (List.mem_cons_of_mem x hy))
    simp [cumsumFrom, hx, ih, List.replicate_succ]

/-- C3 (amended): when a non-empty filtered record set with non-negative
per-record credits has total credits 0, the aggregation raises no
division-by-zero error (the embedding is a total function), but the
cumulative percentage it computes is NaN for every year — the float
quotient 0/0 — not 0.0. -/
theorem c3_zero_total_gives_nan (l : List NRec) (_hne : l ≠ [])
    (hnn : ∀ r ∈ l, 0 ≤ r.creditos) (h0 : totalCreditos l = 0) :
    pctAcumulado l = List.replicate (sortedYears l).length PFloat.nan := by
  have hge : ∀ y ∈ creditosPorAno l, 0 ≤ y := by
    intro y hy
    rcases List.mem_map.1 hy with ⟨yr, _, rfl⟩
    refine List.sum_nonneg ?_
    intro z hz
    rcases List.mem_map.1 hz with ⟨r, hr, rfl⟩
    exact hnn r (List.mem_filter.1 hr).1
  have hz : ∀ x ∈ creditosPorAno l, x = 0 := fun x hx =>
    List.all_zero_of_le_zero_le_of_sum_eq_zero hge h0 hx
  have hcum : acumulado l = List.replicate (creditosPorAno l).length 0 := by
    rw [acumulado]
    exact cumsumFrom_zero_of_all_zero _ hz
  have hlen : (creditosPorAno l).length = (sortedYears l).length := by
    simp [creditosPorAno]
  rw [pctAcumulado, hcum, List.map_replicate, hlen, h0]
  simp [pdiv, pscale, round2P]

/-- C3 (witness). -/
theorem c3_witness :
    pctAcumulado zeroCreditExample =
      List.replicate (sortedYears zeroCreditExample).length PFloat.nan :=
  c3_zero_total_gives_nan zeroCreditExample (by decide) (by decide) (by decide)

/-- C3 (counterexample): on a one-record set with 0 credits the cumulative
percentage column is [NaN], so it is not 0.0 for every year. -/
theorem c3_counterexample :
    pctAcumulado zeroCreditExample = [PFloat.nan] ∧
    PFloat.nan ≠ PFloat.val 0 := by
  constructor
  · have htot : totalCreditos zeroCreditExample = 0 := by decide
    have hacc : acumulado zeroCreditExample = [0] := by decide
    rw [pctAcumulado, hacc, htot]
    simp [pdiv, pscale, round2P]
  · decide

/-- Ten ratings whose last key, `Culinária`, is not a benchmark
competency. -/
def foreignRatings : List (String × Rat) :=
  [("Engenharia Elétrica", 3), ("Power Line Communication", 3), ("Gestão de Projetos", 3),
   ("Atendimento ao Cliente", 3), ("Análise de Dados", 3), ("Vendas Técnicas", 3),
   ("Automação Industrial", 3), ("Liderança de Equipes", 3), ("Sustentabilidade Energética", 3),
   ("Culinária", 3)]

/-- Unwrapping of a successful comparison-table construction. -/
def rowsOf : Except String (List CompRow) → List CompRow
  | Except.ok rows => rows
  | Except.error _ => []

/-- C2 (counterexample): the ratings list `foreignRatings` contains the key
`Culinária`, which is absent from the benchmark table, yet the comparison
succeeds without any error: the mismatch is silently absorbed. -/
theorem c2_counterexample :
    ("Culinária" ∈ foreignRatings.map Prod.fst) ∧
    ("Culinária" ∉ benchmarkCompetencias) ∧
    Except.isOk (create_career_assessment foreignRatings) = true := by
  exact ⟨by decide, by decide, rfl⟩

/-- C2 (amended): the comparison performs no key-membership check at all —
any 10-entry ratings mapping, whatever its keys, is accepted and paired
positionally with the benchmark column (a foreign key is silently
absorbed); an error is signalled only when the number of ratings differs
from the 10 benchmark entries, as a DataFrame column-length mismatch. -/
theorem c2_no_key_check :
    (∀ ratings : List (String × Rat), ratings.length = 10 →
      Except.isOk (create_career_assessment ratings) = true)
    ∧ (∀ ratings : List (String × Rat), ratings.length ≠ 10 →
      create_career_assessment ratings = Except.error "All arrays must be of the same length")
    ∧ create_career_assessment foreignRatings =
        Except.ok (List.zipWith (fun p b => CompRow.mk p.1 p.2 b) foreignRatings benchmarkValores) := by
  refine ⟨fun ratings h => ?_, fun ratings h => ?_, rfl⟩
  · rw [create_career_assessment, if_pos (by rw [h]; rfl)]
    rfl
  · rw [create_career_assessment, if_neg (fun hc => h (hc.trans rfl))]

/-- C2 (witness). -/
theorem c2_witness : Except.isOk (create_career_assessment defaultRatings) = true :=
  c2_no_key_check.1 defaultRatings (by decide)

/-- The default ratings with the first two competencies swapped. -/
def swappedRatings : List (String × Rat) :=
  ("Power Line Communication", 3) :: ("Engenharia Elétrica", 3) ::
    (benchmarkCompetencias.drop 2).map (fun c => (c, 3))

/-- Positional lookup of a zipWith result. -/
theorem zipWith_getElem?_eq {α β γ : Type} (f : α → β → γ) :
    ∀ (as : List α) (bs : List β) (i : Nat) (a : α) (b : β),
      as[i]? = some a → bs[i]? = some b → (List.zipWith f as bs)[i]? = some (f a b)
  | _ :: _, _ :: _, 0, a, b, ha, hb => by
    simp only [List.getElem?_cons_zero, Option.some_inj] at ha hb
    simp [ha, hb]
  | a' :: as, b' :: bs, i + 1, a, b, ha, hb => by
    simp only [List.getElem?_cons_succ, List.zipWith_cons_cons] at ha hb ⊢
    exact zipWith_getElem?_eq f as bs i a b ha hb
  | [], _, i, a, b, ha, hb => by simp at ha
  | _ :: _, [], i, a, b, ha, hb => by simp at hb

/-- C10: the comparison pairs ratings with market averages purely by
position: for any accepted ratings mapping, the i-th rating entry is paired
with the i-th benchmark value regardless of its key; consequently the
default ratings give `Engenharia Elétrica` the benchmark 3.8 = 19/5, while
the same keys with the first two entries swapped give the first position
(now `Power Line Communication`) that same 3.8 and give `Engenharia
Elétrica`, now in second position, 3.2 = 16/5 instead. -/
theorem c10_positional_pairing :
    (∀ (ratings : List (String × Rat)) (rows : List CompRow),
      create_career_assessment ratings = Except.ok rows →
      ∀ (i : Nat) (name : String) (v b : Rat),
        ratings[i]? = some (name, v) → benchmarkValores[i]? = some b →
        rows[i]? = some (CompRow.mk name v b))
    ∧ (rowsOf (create_career_assessment defaultRatings))[0]? =
        some (CompRow.mk "Engenharia Elétrica" 3 (19 / 5))
    ∧ (rowsOf (create_career_assessment swappedRatings))[0]? =
        some (CompRow.mk "Power Line Communication" 3 (19 / 5))
    ∧ (rowsOf (create_career_assessment swappedRatings))[1]? =
        some (CompRow.mk "Engenharia Elétrica" 3 (16 / 5)) := by
  refine ⟨?_, rfl, rfl, rfl⟩
  intro ratings rows hok i name v b ha hb
  rw [create_career_assessment] at hok
  split at hok
  · rw [Except.ok.injEq] at hok
    rw [← hok]
    exact zipWith_getElem?_eq _ ratings benchmarkValores i (name, v) b ha hb
  · exact absurd hok (by simp)

/-- C10 (witness). -/
theorem c10_witness :
    (rowsOf (create_career_assessment defaultRatings))[3]? =
      some (CompRow.mk "Atendimento ao Cliente" 3 (7 / 2)) :=
  c10_positional_pairing.1 defaultRatings (rowsOf (create_career_assessment defaultRatings))
    rfl 3 "Atendimento ao Cliente" 3 (7 / 2) rfl rfl

/-- Three comparison rows probing the strength threshold: differentials
0.7 (included), 0.0 (excluded) and exactly 0.5 (excluded). -/
def strengthExample : List CompRow :=
  [CompRow.mk "Engenharia Elétrica" (9 / 2) (19 / 5),
   CompRow.mk "Power Line Communication" (16 / 5) (16 / 5),
   CompRow.mk "Gestão de Projetos" (23 / 5) (41 / 10)]

/-- C9: each row's differential is the exact difference between the
self-rating and the market average of that same row (no rounding), and the
strengths selection is an order-preserving sub-selection holding exactly
the rows with differential strictly above 0.5; on the probe rows only the
0.7 differential survives — 0.0 and exactly 0.5 are excluded. -/
theorem c9_differential_strengths :
    (∀ (rows : List CompRow) (i : Nat) (r : CompRowD),
      (addDiferencial rows)[i]? = some r →
      ∃ c : CompRow, rows[i]? = some c ∧
        r.diferencial = c.suaAvaliacao - c.mediaMercado)
    ∧ (∀ rows : List CompRowD, List.Sublist (strengthsOf rows) rows)
    ∧ (∀ (rows : List CompRowD) (r : CompRowD),
        r ∈ strengthsOf rows ↔ r ∈ rows ∧ 1 / 2 < r.diferencial)
    ∧ strengthsOf (addDiferencial strengthExample) =
        [CompRowD.mk "Engenharia Elétrica" (9 / 2) (19 / 5) (7 / 10)] := by
  refine ⟨fun rows i r hr => ?_, fun rows => List.filter_sublist rows,
    fun rows r => ?_, ?_⟩
  · rw [addDiferencial, List.getElem?_map, Option.map_eq_some'] at hr
    rcases hr with ⟨c, hc, rfl⟩
    exact ⟨c, hc, rfl⟩
  · simp [strengthsOf, List.mem_filter]
  · norm_num [strengthsOf, addDiferencial, strengthExample, List.filter]

/-- C9 (witness). -/
theorem c9_witness :
    ∃ c : CompRow, strengthExample[0]? = some c ∧
      (CompRowD.mk "Engenharia Elétrica" (9 / 2) (19 / 5) (9 / 2 - 19 / 5)).diferencial =
        c.suaAvaliacao - c.mediaMercado :=
  c9_differential_strengths.1 strengthExample 0
    (CompRowD.mk "Engenharia Elétrica" (9 / 2) (19 / 5) (9 / 2 - 19 / 5)) rfl

instance : IsTotal NRec gradeGe := ⟨fun a b => le_total b.nota a.nota⟩

instance : IsTrans NRec gradeGe := ⟨fun _ _ _ h1 h2 => le_trans h2 h1⟩

/-- In a descending-sorted list, any element of the first `n` positions is
strictly exceeded by fewer than `n` elements of the list. -/
theorem sorted_take_filter_lt :
    ∀ s : List NRec, List.Sorted gradeGe s → ∀ (n : Nat) (x : NRec), x ∈ s.take n →
      (s.filter (fun y => decide (x.nota < y.nota))).length < n
  | [], _, n, x, hx => by simp at hx
  | _ :: _, _, 0, x, hx => by simp at hx
  | a :: s, hs, n + 1, x, hx => by
    rw [List.take_succ_cons] at hx
    rcases List.mem_cons.1 hx with hxa | hx'
    · subst hxa
      have hnil : (x :: s).filter (fun y => decide (x.nota < y.nota)) = [] := by
        refine List.filter_eq_nil_iff.2 ?_
        intro y hy
        rcases List.mem_cons.1 hy with hya | hy'
        · subst hya
          simp
        · simpa using not_lt.2 (List.rel_of_sorted_cons hs y hy')
      rw [hnil]
      simp
    · have ih := sorted_take_filter_lt s hs.of_cons n x hx'
      have hle : ((a :: s).filter (fun y => decide (x.nota < y.nota))).length ≤
          (s.filter (fun y => decide (x.nota < y.nota))).length + 1 := by
        rw [List.filter_cons]
        split
        · simp
        · exact Nat.le_succ _
      omega

/-- Inserting a record into a list does not disturb the records of any
fixed grade `g` other than by prepending the new record when its grade is
`g` itself: the keyword of stability. -/
theorem orderedInsert_filter_grade (a : NRec) (g : Rat) :
    ∀ l : List NRec,
      (List.orderedInsert gradeGe a l).filter (fun r => decide (r.nota = g)) =
        if a.nota = g then a :: l.filter (fun r => decide (r.nota = g))
        else l.filter (fun r => decide (r.nota = g))
  | [] => by
    by_cases hg : a.nota = g <;> simp [List.orderedInsert, hg]
  | b :: l => by
    by_cases hab : gradeGe a b
    · rw [List.orderedInsert_of_le gradeGe l hab]
      by_cases hg : a.nota = g <;> simp [List.filter_cons, hg]
    · have hb : a.nota < b.nota := lt_of_not_le hab
      have ih := orderedInsert_filter_grade a g l
      rw [List.orderedInsert, if_neg hab]
      by_cases hg : a.nota = g
      · have hbg : ¬ b.nota = g := by
          rw [← hg]
          exact ne_of_gt hb
        simp [List.filter_cons, hbg, ih, hg]
      · by_cases hbg : b.nota = g <;> simp [List.filter_cons, hbg, ih, hg]

/-- Stability of the embedded sort: for every grade `g`, the records of
grade `g` appear in the sorted list exactly in their original relative
order. -/
theorem insertionSort_filter_grade (g : Rat) :
    ∀ l : List NRec,
      (List.insertionSort gradeGe l).filter (fun r => decide (r.nota = g)) =
        l.filter (fun r => decide (r.nota = g))
  | [] => rfl
  | a :: l => by
    rw [List.insertionSort, orderedInsert_filter_grade a g,
      insertionSort_filter_grade g l]
    by_cases hg : a.nota = g <;> simp [List.filter_cons, hg]

/-- Twelve records with distinct grades, for the top-10 ranking. -/
def twelveExample : List NRec :=
  [NRec.mk "D01" "Disc A" 12 30 2019 "Outras" 2,
   NRec.mk "D02" "Disc B" 11 30 2019 "Outras" 2,
   NRec.mk "D03" "Disc C" 9 30 2019 "Outras" 2,
   NRec.mk "D04" "Disc D" 10 30 2020 "Outras" 2,
   NRec.mk "D05" "Disc E" 8 30 2020 "Outras" 2,
   NRec.mk "D06" "Disc F" 7 30 2020 "Outras" 2,
   NRec.mk "D07" "Disc G" 5 30 2021 "Outras" 2,
   NRec.mk "D08" "Disc H" 6 30 2021 "Outras" 2,
   NRec.mk "D09" "Disc I" 4 30 2021 "Outras" 2,
   NRec.mk "D10" "Disc J" 3 30 2022 "Outras" 2,
   NRec.mk "D11" "Disc K" 1 30 2022 "Outras" 2,
   NRec.mk "D12" "Disc L" 2 30 2022 "Outras" 2]

/-- C8: the top-N selection is sorted by grade descending, has
min(n, record count) rows drawn from the input, each selected record is
strictly exceeded by fewer than n records of the input (so the selection
consists of n highest-grade records), equal grades keep their original
relative order (stability of the underlying sort), and on 12 records with
distinct grades the top 10 are exactly the 10 highest grades in descending
order. -/
theorem c8_top_by_grade :
    (∀ (l : List NRec) (n : Nat), List.Pairwise gradeGe (topByGrade l n))
    ∧ (∀ (l : List NRec) (n : Nat), (topByGrade l n).length = min n l.length)
    ∧ (∀ (l : List NRec) (n : Nat) (x : NRec), x ∈ topByGrade l n → x ∈ l)
    ∧ (∀ (l : List NRec) (n : Nat) (x : NRec), x ∈ topByGrade l n →
        (l.filter (fun y => x.nota < y.nota)).length < n)
    ∧ (∀ (l : List NRec) (g : Rat),
        (List.insertionSort gradeGe l).filter (fun r => r.nota = g) =
          l.filter (fun r => r.nota = g))
    ∧ topByGrade twelveExample 10 =
        [NRec.mk "D01" "Disc A" 12 30 2019 "Outras" 2,
         NRec.mk "D02" "Disc B" 11 30 2019 "Outras" 2,
         NRec.mk "D04" "Disc D" 10 30 2020 "Outras" 2,
         NRec.mk "D03" "Disc C" 9 30 2019 "Outras" 2,
         NRec.mk "D05" "Disc E" 8 30 2020 "Outras" 2,
         NRec.mk "D06" "Disc F" 7 30 2020 "Outras" 2,
         NRec.mk "D08" "Disc H" 6 30 2021 "Outras" 2,
         NRec.mk "D07" "Disc G" 5 30 2021 "Outras" 2,
         NRec.mk "D09" "Disc I" 4 30 2021 "Outras" 2,
         NRec.mk "D10" "Disc J" 3 30 2022 "Outras" 2] := by
  refine ⟨fun l n => ?_, fun l n => ?_, fun l n x hx => ?_, fun l n x hx => ?_,
    fun l g => insertionSort_filter_grade g l, ?_⟩
  · exact List.Pairwise.sublist (List.take_sublist n _)
      (List.sorted_insertionSort gradeGe l)
  · rw [topByGrade, List.length_take, List.length_insertionSort]
  · exact (List.perm_insertionSort gradeGe l).mem_iff.1 (List.mem_of_mem_take hx)
  · have h1 := sorted_take_filter_lt (List.insertionSort gradeGe l)
      (List.sorted_insertionSort gradeGe l) n x hx
    have h2 := ((List.perm_insertionSort gradeGe l).filter
      (fun y => decide (x.nota < y.nota))).length_eq
    omega
  · norm_num [topByGrade, twelveExample, gradeGe, List.insertionSort, List.orderedInsert,
      List.take_succ_cons]

/-- C8 (witness). -/
theorem c8_witness :
    (zeroCreditExample.filter
      (fun y => (NRec.mk "SEM1" "Seminário" 7 10 2020 "Outras" 0).nota < y.nota)).length < 1 :=
  c8_top_by_grade.2.2.2.1 zeroCreditExample 1 (NRec.mk "SEM1" "Seminário" 7 10 2020 "Outras" 0)
    (by simp [topByGrade, zeroCreditExample, List.insertionSort, List.orderedInsert])

end App



